import Mathlib

/-!
Shallow embedding of the `Agent` class of
`packages/core/src/agents/Agents.ts` (web-agent-framework).

Modelling conventions:
* The class's mutable fields become the record `AgentSt`; each method is a
  pure function from state to state, returning the emitted events alongside.
* `Date.now()` / `Math.random()`-based ids and timestamps are modelled by a
  counter `ctr` threaded through the state: each `generateId()` call
  consumes one counter value (used both as the id string and as the
  timestamp of the message created there).
* The external engine is an oracle: a scripted list of responses consumed
  one per `engine.chat.completions.create` call; the request passed to each
  call is recorded in the trace `sent`.  A rejected promise is the
  `EngineResult.reject` script entry.
* JavaScript numbers used only for `x || default` are modelled as `Rat`
  (`0`, `null`/`undefined` are falsy); strings are truthy iff non-empty;
  a present array (even empty) is truthy.
* `JSON.parse` / `JSON.stringify` and the user-supplied tool handlers are
  parameters (`parse`, `stringify`, the `handler` field); a thrown
  exception is the `Except.error` case, carrying the string interpolation
  `${error}` of the thrown value.
* Thrown errors of `chat` itself are `ChatError`; `async` control flow is
  sequentialised (the single-threaded cooperative model of the spec).
-/

namespace WebAgent

inductive Role
  | system
  | user
  | assistant
  | tool
deriving DecidableEq, Repr

/-- `ToolCall` of Agents.ts (lines 38-42). -/
structure ToolCall where
  id : String
  name : String
  arguments : String
deriving DecidableEq, Repr

/-- `ChatMessage` of Agents.ts (lines 29-36); `toolCalls`/`toolCallId` are
optional fields. -/
structure ChatMessage where
  id : String
  role : Role
  content : String
  timestamp : Nat
  toolCalls : Option (List ToolCall) := none
  toolCallId : Option String := none
deriving DecidableEq, Repr

/-- JSON values exchanged with tool handlers (`any` payloads). -/
inductive Json
  | null
  | bool (b : Bool)
  | num (n : Int)
  | str (s : String)
  | arr (elems : List Json)
  | obj (fields : List (String × Json))
deriving BEq, Repr

/-- `AgentTool` (lines 22-27): the handler is the awaited promise,
`Except.error` being a rejection. -/
structure AgentTool where
  name : String
  description : String
  parameters : Option Json := none
  handler : Json → Except String Json

/-- `AgentConfig` (lines 11-20). -/
structure AgentConfig where
  id : String
  name : String
  systemPrompt : Option String := none
  model : String
  temperature : Option Rat := none
  topP : Option Rat := none
  maxTokens : Option Rat := none
  tools : Option (List AgentTool) := none

/-- One incremental function-call fragment inside a streaming delta
(`tc.function?.name`, `tc.function?.arguments`). -/
structure RawFunction where
  name : Option String := none
  arguments : Option String := none
deriving DecidableEq, Repr

/-- One entry of `delta.tool_calls` in a streaming chunk; every field may be
absent (the code defaults each with `|| ''`). -/
structure RawToolCall where
  id : Option String := none
  function : Option RawFunction := none
deriving DecidableEq, Repr

/-- `chunk.choices[0]?.delta` payload. -/
structure Delta where
  content : Option String := none
  tool_calls : Option (List RawToolCall) := none
deriving DecidableEq, Repr

/-- A streaming chunk: its list of choices, each carrying a delta. -/
structure Chunk where
  choices : List Delta
deriving DecidableEq, Repr

/-- A function call inside a full (non-streaming) completion message:
the code reads `tc.id`, `tc.function.name`, `tc.function.arguments`
without optional chaining. -/
structure FnCall where
  name : String
  arguments : String
deriving DecidableEq, Repr

structure NSToolCall where
  id : String
  function : FnCall
deriving DecidableEq, Repr

/-- `response.choices[0]?.message` payload of a full completion. -/
structure RespMessage where
  content : Option String := none
  tool_calls : Option (List NSToolCall) := none
deriving DecidableEq, Repr

structure RespChoice where
  message : Option RespMessage := none
deriving DecidableEq, Repr

/-- `ChatCompletion` as consumed by the non-streaming branch. -/
structure ChatCompletion where
  choices : List RespChoice
deriving DecidableEq, Repr

/-- One scripted outcome of `engine.chat.completions.create`. -/
inductive EngineResult
  | stream (chunks : List Chunk)
  | completion (resp : ChatCompletion)
  | reject (err : String)
deriving DecidableEq, Repr

/-- A message of the outgoing completion request (role + content;
tool messages additionally carry `tool_call_id`). -/
structure ReqMessage where
  role : Role
  content : String
  tool_call_id : Option String := none
deriving Repr

/-- One entry of `request.tools` (`type: 'function'` is constant and
omitted). -/
structure ReqTool where
  name : String
  description : String
  parameters : Json
deriving Repr

/-- `ChatCompletionRequest` as built by `chat` (lines 125-153). -/
structure ChatCompletionRequest where
  messages : List ReqMessage
  temperature : Rat
  top_p : Rat
  max_tokens : Rat
  stream : Bool
  tools : Option (List ReqTool) := none
  tool_choice : Option String := none
deriving Repr

/-- The errors `chat` can throw. -/
inductive ChatError
  | notInitialized
  | busy
  | engine (msg : String)
deriving DecidableEq, Repr

/-- The literal `Error` messages of Agents.ts. -/
def ChatError.message : ChatError → String
  | .notInitialized => "Agent not initialized. Call initialize() first."
  | .busy => "Agent is currently processing another request."
  | .engine m => m

/-- The events the Agent emits, with their payloads. -/
inductive Event
  | modelLoading (model : String)
  | initialized (agentId : String)
  | messageAdded (message : ChatMessage)
  | streamingStart (agentId : String)
  | streamingChunk (chunk : String) (message : ChatMessage)
  | streamingEnd (agentId : String)
  | toolRegistered (name : String)
  | toolUnregistered (name : String)
  | configUpdated
  | historyCleared (agentId : String)
  | stateRestored (agentId : String)
  | toolExecuted (toolCall : ToolCall) (result : Json)
  | toolError (toolCall : ToolCall) (err : String)
  | error (err : ChatError) (agentId : String)
  | destroyed (agentId : String)

/-- The mutable fields of the `Agent` class (lines 53-58), plus the
id/timestamp counter `ctr` and the trace `sent` of requests that reached
the engine adapter. -/
structure AgentSt where
  config : AgentConfig
  engine : Option (List EngineResult) := none
  messages : List ChatMessage := []
  isLoaded : Bool := false
  isStreaming : Bool := false
  tools : List (String × AgentTool) := []
  ctr : Nat := 0
  sent : List ChatCompletionRequest := []

/-- `AgentState` snapshot (lines 44-50). -/
structure AgentSnapshot where
  config : AgentConfig
  messages : List ChatMessage
  isLoaded : Bool
  isStreaming : Bool
  lastActivity : Nat

/-- JS `x || d` on an optional number: `undefined` and `0` are falsy. -/
def jsOrNum (x : Option Rat) (d : Rat) : Rat :=
  match x with
  | some v => if v = 0 then d else v
  | none => d

/-- JS `x || d` on an optional string: `undefined` and `''` are falsy. -/
def jsOrStr (x : Option String) (d : String) : String :=
  match x with
  | some s => if s = "" then d else s
  | none => d

/-- JS-truthiness of an optional string (used by
`msg.role === 'tool' && msg.toolCallId`). -/
def strTruthy (x : Option String) : Option String :=
  match x with
  | some s => if s = "" then none else some s
  | none => none

/-- `Map.prototype.set`: overwrite in place, else append. -/
def mapSet (m : List (String × AgentTool)) (n : String) (t : AgentTool) :
    List (String × AgentTool) :=
  match m with
  | [] => [(n, t)]
  | (k, t0) :: rest => if k = n then (n, t) :: rest else (k, t0) :: mapSet rest n t

/-- `Map.prototype.get`. -/
def mapGet (m : List (String × AgentTool)) (n : String) : Option AgentTool :=
  match m with
  | [] => none
  | (k, t) :: rest => if k = n then some t else mapGet rest n

/-- `generateId()` + `Date.now()` for a message created at counter value
`ctr`. -/
def mkMessage (ctr : Nat) (role : Role) (content : String) : ChatMessage :=
  { id := toString ctr, role := role, content := content, timestamp := ctr }

/-- The constructor (lines 60-78): registers the configured tools and seeds
the history with the system message when a prompt is given. -/
def Agent.new (config : AgentConfig) (ctr : Nat) : AgentSt :=
  { config := config
    tools := (config.tools.getD []).foldl (fun m t => mapSet m t.name t) []
    messages :=
      match config.systemPrompt with
      | some sp => [mkMessage ctr Role.system sp]
      | none => []
    ctr :=
      match config.systemPrompt with
      | some _ => ctr + 1
      | none => ctr }

/-- `clearHistory` (lines 303-307). -/
def clearHistory (st : AgentSt) : AgentSt × List Event :=
  ({ st with messages := st.messages.filter (fun msg => msg.role = Role.system) },
   [Event.historyCleared st.config.id])

/-- `getState` (lines 312-321). -/
def getState (st : AgentSt) : AgentSnapshot :=
  { config := st.config
    messages := st.messages
    isLoaded := st.isLoaded
    isStreaming := st.isStreaming
    lastActivity :=
      if st.messages.length > 0 then
        (st.messages.map (fun m => m.timestamp)).foldl max 0
      else 0 }

/-- `restoreState` (lines 326-331): copies config, messages and the loaded
flag from the snapshot; nothing else is assigned. -/
def restoreState (st : AgentSt) (s : AgentSnapshot) : AgentSt × List Event :=
  ({ st with config := s.config, messages := s.messages, isLoaded := s.isLoaded },
   [Event.stateRestored s.config.id])

/-- `registerTool` (lines 278-281). -/
def registerTool (st : AgentSt) (t : AgentTool) : AgentSt × List Event :=
  ({ st with tools := mapSet st.tools t.name t }, [Event.toolRegistered t.name])

/-- The request built by `chat` (lines 124-153): the whole history mapped to
role/content (tool messages with a truthy `toolCallId` also carry
`tool_call_id`), `temperature`/`top_p`/`max_tokens` via `||`-defaulting,
`stream`, and — when the tool map is non-empty — the tool schemas and
`tool_choice: 'auto'`. -/
def buildRequest (cfg : AgentConfig) (messages : List ChatMessage)
    (tools : List AgentTool) (streaming : Bool) : ChatCompletionRequest :=
  let base : ChatCompletionRequest :=
    { messages := messages.map (fun msg =>
        { role := msg.role
          content := msg.content
          tool_call_id :=
            if msg.role = Role.tool then strTruthy msg.toolCallId else none })
      temperature := jsOrNum cfg.temperature (7 / 10)
      top_p := jsOrNum cfg.topP (9 / 10)
      max_tokens := jsOrNum cfg.maxTokens 1000
      stream := streaming }
  if tools.length > 0 then
    { base with
      tools := some (tools.map (fun t =>
        { name := t.name
          description := t.description
          parameters := t.parameters.getD (Json.obj []) }))
      tool_choice := some "auto" }
  else base

/-- `delta.tool_calls.map(...)` conversion (lines 183-187), each field
`||`-defaulted to the empty string. -/
def rawToToolCall (tc : RawToolCall) : ToolCall :=
  { id := jsOrStr tc.id ""
    name := jsOrStr (tc.function.bind (fun f => f.name)) ""
    arguments := jsOrStr (tc.function.bind (fun f => f.arguments)) "" }

/-- `message.tool_calls.map(...)` conversion of the non-streaming branch
(lines 199-203); the fields are read without defaulting. -/
def nsToToolCall (tc : NSToolCall) : ToolCall :=
  { id := tc.id, name := tc.function.name, arguments := tc.function.arguments }

/-- One iteration of the `for await (const chunk of streamResponse)` loop
(lines 170-189), acting on (`responseContent`, `assistantMessage`, events
emitted so far).  A truthy (non-empty) textual delta is appended to the
content and emits `streaming-chunk`; a present `tool_calls` array replaces
the assistant message's tool-call list. -/
def streamStep (acc : String × ChatMessage × List Event) (chunk : Chunk) :
    String × ChatMessage × List Event :=
  let delta := chunk.choices.head?
  let acc1 :=
    match delta.bind (fun d => d.content) with
    | some c =>
      if c = "" then acc
      else
        let rc := acc.1 ++ c
        let am := { acc.2.1 with content := rc }
        (rc, am, acc.2.2 ++ [Event.streamingChunk c am])
    | none => acc
  match delta.bind (fun d => d.tool_calls) with
  | some tcs => (acc1.1, { acc1.2.1 with toolCalls := some (tcs.map rawToToolCall) }, acc1.2.2)
  | none => acc1

/-- `await this.engine.chat.completions.create(request)`: records the
request in the `sent` trace and consumes the next scripted engine
response; a `reject` entry (or an exhausted script) is a rejected
promise. -/
def createCall (st : AgentSt) (request : ChatCompletionRequest) :
    Except ChatError EngineResult × AgentSt :=
  match st.engine with
  | none => (Except.error (ChatError.engine "engine unavailable"), st)
  | some rs =>
    let st1 := { st with sent := st.sent ++ [request] }
    match rs with
    | [] => (Except.error (ChatError.engine "no scripted engine response"),
             { st1 with engine := some [] })
    | r :: rest =>
      match r with
      | EngineResult.reject e =>
        (Except.error (ChatError.engine e), { st1 with engine := some rest })
      | r => (Except.ok r, { st1 with engine := some rest })

/-- `executeToolCalls` (lines 232-273): for each call in order, look the
tool up; append a `tool not found` message if absent; otherwise parse the
arguments, run the handler and append the serialized result (emitting
`tool-executed`), or append an error message and emit `tool-error` if
either step throws.  No failure stops the loop. -/
def executeToolCalls (parse : String → Except String Json)
    (stringify : Json → String) :
    AgentSt → List ToolCall → AgentSt × List Event
  | st, [] => (st, [])
  | st, toolCall :: rest =>
    match mapGet st.tools toolCall.name with
    | none =>
      let errorMessage : ChatMessage :=
        { mkMessage st.ctr Role.tool
            ("Error: Tool '" ++ toolCall.name ++ "' not found") with
          toolCallId := some toolCall.id }
      let st1 := { st with messages := st.messages ++ [errorMessage], ctr := st.ctr + 1 }
      executeToolCalls parse stringify st1 rest
    | some tool =>
      match (parse toolCall.arguments).bind tool.handler with
      | Except.ok result =>
        let toolMessage : ChatMessage :=
          { mkMessage st.ctr Role.tool (stringify result) with
            toolCallId := some toolCall.id }
        let st1 := { st with messages := st.messages ++ [toolMessage], ctr := st.ctr + 1 }
        let (st2, evs) := executeToolCalls parse stringify st1 rest
        (st2, Event.toolExecuted toolCall result :: evs)
      | Except.error e =>
        let errorMessage : ChatMessage :=
          { mkMessage st.ctr Role.tool ("Error executing tool: " ++ e) with
            toolCallId := some toolCall.id }
        let st1 := { st with messages := st.messages ++ [errorMessage], ctr := st.ctr + 1 }
        let (st2, evs) := executeToolCalls parse stringify st1 rest
        (st2, Event.toolError toolCall e :: evs)

/-- The result of one `chat` call: its returned value or thrown error, the
state after the call, and the events emitted during it. -/
structure ChatOut where
  result : Except ChatError String
  st : AgentSt
  events : List Event

/-- `chat(message, streaming)` (lines 102-227), fuelled for the recursive
continuation of line 214.  The two guard `throw`s precede the `try` block,
so they emit nothing; everything thrown inside the `try` reaches the
`catch`, which emits `error` and re-raises; the `finally` clears the
streaming flag on every exit. -/
def chat (parse : String → Except String Json) (stringify : Json → String) :
    Nat → AgentSt → String → Bool → ChatOut
  | 0, st, _, _ => ⟨Except.error (ChatError.engine "out of fuel"), st, []⟩
  | fuel + 1, st, message, streaming =>
    if st.engine.isNone || !st.isLoaded then
      ⟨Except.error ChatError.notInitialized, st, []⟩
    else if st.isStreaming then
      ⟨Except.error ChatError.busy, st, []⟩
    else
      let stT := { st with isStreaming := true }
      let userMessage := mkMessage stT.ctr Role.user message
      let st1 := { stT with messages := stT.messages ++ [userMessage], ctr := stT.ctr + 1 }
      let evs0 := [Event.messageAdded userMessage]
      let request := buildRequest st1.config st1.messages (st1.tools.map Prod.snd) streaming
      let assistant0 := mkMessage st1.ctr Role.assistant ""
      let st2 := { st1 with ctr := st1.ctr + 1 }
      let phase :
          Except ChatError Unit × AgentSt × List Event × String × ChatMessage :=
        if streaming then
          let evsS := evs0 ++ [Event.streamingStart st2.config.id]
          match createCall st2 request with
          | (Except.error e, st3) => (Except.error e, st3, evsS, "", assistant0)
          | (Except.ok (EngineResult.stream chunks), st3) =>
            let folded := chunks.foldl streamStep ("", assistant0, [])
            (Except.ok (), st3,
             evsS ++ folded.2.2 ++ [Event.streamingEnd st2.config.id],
             folded.1, folded.2.1)
          | (Except.ok _, st3) =>
            (Except.error (ChatError.engine "completion object is not async iterable"),
             st3, evsS, "", assistant0)
        else
          match createCall st2 request with
          | (Except.error e, st3) => (Except.error e, st3, evs0, "", assistant0)
          | (Except.ok (EngineResult.completion resp), st3) =>
            let msg := resp.choices.head?.bind (fun c => c.message)
            let rc := jsOrStr (msg.bind (fun m => m.content)) ""
            let am :=
              match msg.bind (fun m => m.tool_calls) with
              | some tcs =>
                { assistant0 with content := rc, toolCalls := some (tcs.map nsToToolCall) }
              | none => { assistant0 with content := rc }
            (Except.ok (), st3, evs0, rc, am)
          | (Except.ok _, st3) =>
            (Except.error (ChatError.engine "stream object has no choices"),
             st3, evs0, "", assistant0)
      match phase with
      | (Except.error e, st3, evs, _, _) =>
        ⟨Except.error e, { st3 with isStreaming := false },
         evs ++ [Event.error e st3.config.id]⟩
      | (Except.ok _, st3, evs, responseContent, assistantMessage) =>
        if (assistantMessage.toolCalls.getD []).length > 0 then
          let st4 := { st3 with messages := st3.messages ++ [assistantMessage] }
          let evs4 := evs ++ [Event.messageAdded assistantMessage]
          let execd := executeToolCalls parse stringify st4 (assistantMessage.toolCalls.getD [])
          let recd := chat parse stringify fuel execd.1 "" streaming
          match recd.result with
          | Except.error e =>
            ⟨Except.error e, { recd.st with isStreaming := false },
             evs4 ++ execd.2 ++ recd.events ++ [Event.error e recd.st.config.id]⟩
          | Except.ok v =>
            ⟨Except.ok v, { recd.st with isStreaming := false },
             evs4 ++ execd.2 ++ recd.events⟩
        else
          ⟨Except.ok responseContent,
           { st3 with messages := st3.messages ++ [assistantMessage], isStreaming := false },
           evs ++ [Event.messageAdded assistantMessage]⟩

/-! ## Derived notions used by the theorems -/

/-- The textual deltas of a chunk sequence (`chunk.choices[0]?.delta?.content`,
in order, keeping only chunks where a content field is present). -/
def textDeltas (chunks : List Chunk) : List String :=
  chunks.filterMap (fun c => (c.choices.head?).bind (fun d => d.content))

/-- The payload of a `streaming-chunk` event, `none` for any other event. -/
def chunkPayload : Event → Option String
  | Event.streamingChunk c _ => some c
  | _ => none

/-- The `tool_calls` array of the last chunk that carries one. -/
def lastToolCallDeltas (chunks : List Chunk) : Option (List RawToolCall) :=
  chunks.foldl
    (fun acc c =>
      match (c.choices.head?).bind (fun d => d.tool_calls) with
      | some tcs => some tcs
      | none => acc)
    none

/-- The content of the tool-role message that `executeToolCalls` appends for
one call, by case (unknown tool / successful run / parse-or-handler
failure). -/
def toolOutcomeContent (parse : String → Except String Json)
    (stringify : Json → String) (tools : List (String × AgentTool))
    (tc : ToolCall) : String :=
  match mapGet tools tc.name with
  | none => "Error: Tool '" ++ tc.name ++ "' not found"
  | some tool =>
    match (parse tc.arguments).bind tool.handler with
    | Except.ok result => stringify result
    | Except.error e => "Error executing tool: " ++ e

/-- The events `executeToolCalls` emits for a call list: `tool-executed` on
success, `tool-error` on a parse/handler failure, nothing for an unknown
tool. -/
def toolEventsSpec (parse : String → Except String Json)
    (tools : List (String × AgentTool)) (calls : List ToolCall) : List Event :=
  calls.filterMap (fun tc =>
    match mapGet tools tc.name with
    | none => none
    | some tool =>
      match (parse tc.arguments).bind tool.handler with
      | Except.ok result => some (Event.toolExecuted tc result)
      | Except.error e => some (Event.toolError tc e))

/-! ## Concrete fixtures -/

/-- A trivial model of `JSON.parse` for concrete runs: everything parses to
`null`. -/
def parse0 : String → Except String Json := fun _ => Except.ok Json.null

/-- A trivial model of `JSON.stringify` for concrete runs. -/
def stringify0 : Json → String := fun _ => "null"

def cfg0 : AgentConfig := { id := "agent-1", name := "Agent", model := "model-a" }

/-- A completion whose assistant message is `"ok"` with no tool calls. -/
def respOk : ChatCompletion :=
  { choices := [{ message := some { content := some "ok" } }] }

/-- A loaded, idle agent whose engine will answer one non-streaming
completion `"ok"`. -/
def stReady : AgentSt :=
  { Agent.new cfg0 0 with
    engine := some [EngineResult.completion respOk], isLoaded := true }

/-! ## Theorems -/

/-- C5: `clearHistory` retains exactly the messages whose role is `system`,
in their original order (the retained list is a sublist of the history, and
every message keeps its multiplicity iff its role is `system`), and a
system message that was first is still first. -/
theorem C5_clearHistory_keeps_system_only (st : AgentSt) :
    ((clearHistory st).1.messages.Sublist st.messages ∧
      ∀ m : ChatMessage,
        (clearHistory st).1.messages.count m =
          if m.role = Role.system then st.messages.count m else 0) ∧
    (∀ m : ChatMessage, st.messages.head? = some m → m.role = Role.system →
      (clearHistory st).1.messages.head? = some m) := by
  refine ⟨⟨List.filter_sublist st.messages, fun m => ?_⟩, fun m hh hs => ?_⟩
  · show List.count m (st.messages.filter fun msg => msg.role = Role.system) = _
    by_cases h : m.role = Role.system
    · rw [List.count_filter (by simp [h]), if_pos h]
    · rw [if_neg h, List.count_eq_zero]
      simp [List.mem_filter, h]
  · match st, hh with
    | ⟨cfg, eng, m0 :: rest, l, s, t, c, sn⟩, hh =>
      simp only [List.head?_cons, Option.some.injEq] at hh
      subst hh
      simp [clearHistory, List.filter_cons, hs]

/-- C5 witness: a four-message history (system first) keeps exactly its
system messages, system message still first. -/
theorem C5_witness :
    let sysm := mkMessage 0 Role.system "be brief"
    let st : AgentSt :=
      { Agent.new { cfg0 with systemPrompt := some "be brief" } 0 with
        messages := [sysm, mkMessage 1 Role.user "q", mkMessage 2 Role.assistant "a",
                     mkMessage 3 Role.system "late note"] }
    ((clearHistory st).1.messages.Sublist st.messages ∧
      ∀ m : ChatMessage,
        (clearHistory st).1.messages.count m =
          if m.role = Role.system then st.messages.count m else 0) ∧
    ((clearHistory st).1.messages.head? = some sysm) :=
  ⟨(C5_clearHistory_keeps_system_only _).1,
   (C5_clearHistory_keeps_system_only _).2 _ (by decide) (by decide)⟩

/-- C10 counterexample: restoring a snapshot (itself taken mid-stream) into
an agent whose streaming flag is set leaves the agent marked streaming —
the claim's "a restored agent is always marked not-streaming" fails. -/
theorem C10_restore_mid_stream_not_cleared :
    let stBusy : AgentSt := { Agent.new cfg0 0 with isStreaming := true }
    (getState stBusy).isStreaming = true ∧
    (restoreState stBusy (getState stBusy)).1.isStreaming = true := by
  constructor <;> rfl

/-- C10 (amended): `restoreState` replaces config and messages with the
snapshot's and sets the loaded flag from it, but assigns the streaming flag
from neither the snapshot nor a constant — the agent's current streaming
flag is left unchanged — and the engine reference, tool registry, counter
and request trace are untouched; it emits `state-restored`. -/
theorem C10_restoreState_fields (st : AgentSt) (s : AgentSnapshot) :
    (restoreState st s).1.config = s.config ∧
    (restoreState st s).1.messages = s.messages ∧
    (restoreState st s).1.isLoaded = s.isLoaded ∧
    (restoreState st s).1.isStreaming = st.isStreaming ∧
    (restoreState st s).1.engine = st.engine ∧
    (restoreState st s).1.tools = st.tools ∧
    (restoreState st s).1.ctr = st.ctr ∧
    (restoreState st s).1.sent = st.sent ∧
    (restoreState st s).2 = [Event.stateRestored s.config.id] :=
  ⟨rfl, rfl, rfl, rfl, rfl, rfl, rfl, rfl, rfl⟩

/-- C2 counterexample: the not-initialized and busy guards throw before the
`try` block, so those failures are re-raised with no `error` event (the
event list of the call is empty) — refuting "for every failure ... an
'error' event ... is emitted before the error is re-raised". -/
theorem C2_guard_failure_emits_no_event :
    ((chat parse0 stringify0 1 (Agent.new cfg0 0) "hi" true).result =
        Except.error ChatError.notInitialized ∧
      (chat parse0 stringify0 1 (Agent.new cfg0 0) "hi" true).events = []) ∧
    ((chat parse0 stringify0 1 { stReady with isStreaming := true } "hi" false).result =
        Except.error ChatError.busy ∧
      (chat parse0 stringify0 1 { stReady with isStreaming := true } "hi" false).events = []) :=
  ⟨⟨rfl, rfl⟩, ⟨rfl, rfl⟩⟩

/-- C3 counterexample: `chat('', false)` on a loaded, idle agent appends a
user message with empty content (followed by the assistant answer) —
refuting "chat('', streaming) appends no user message". -/
theorem C3_empty_message_still_appended :
    ((chat parse0 stringify0 2 stReady "" false).st.messages.map
        (fun m => (m.role, m.content))) =
      [(Role.user, ""), (Role.assistant, "ok")] := by
  decide

def cfgZeroTemp : AgentConfig := { cfg0 with temperature := some 0 }

/-- C6 counterexample: with `temperature` configured as `0`, the request
`chat` sends to the engine carries the default `0.7`, not the configured
value — refuting "including when a configured value such as
temperature = 0 is set". -/
theorem C6_zero_temperature_replaced_by_default :
    cfgZeroTemp.temperature = some 0 ∧
    ((chat parse0 stringify0 2
          { Agent.new cfgZeroTemp 0 with
            engine := some [EngineResult.completion respOk], isLoaded := true }
          "hi" false).st.sent.map (fun r => r.temperature)) = [7 / 10] :=
  ⟨rfl, rfl⟩

def rawCallA : RawToolCall :=
  { id := some "call-A"
    function := some { name := some "alpha", arguments := some "{}" } }

def rawCallB : RawToolCall :=
  { id := some "call-B"
    function := some { name := some "beta", arguments := some "{}" } }

def chunkA : Chunk := { choices := [{ tool_calls := some [rawCallA] }] }

def chunkB : Chunk := { choices := [{ tool_calls := some [rawCallB] }] }

/-- An agent whose streaming engine response spreads tool-call deltas over
two chunks. -/
def stAB : AgentSt :=
  { Agent.new cfg0 0 with
    engine := some [EngineResult.stream [chunkA, chunkB]], isLoaded := true }

/-- C8 counterexample: after a stream whose first chunk carries tool call
`call-A` and whose second carries `call-B`, the assistant message holds
only `call-B` — the first chunk's delta was overwritten, refuting "the list
contains the tool calls contributed by all chunks". -/
theorem C8_earlier_toolcall_deltas_lost :
    ((chat parse0 stringify0 3 stAB "hi" true).st.messages.map
        (fun m => m.toolCalls)) =
      [none, some [{ id := "call-B", name := "beta", arguments := "{}" }], none] :=
  rfl

/-- C9: `executeToolCalls` processes the calls in list order, appending
exactly one tool-role message per call referencing that call's id, whose
content is the not-found error for an unknown tool, the serialized result
on success, or the failure description on a parse/handler error; it emits
`tool-executed` per success and `tool-error` per failure, and no failure
stops the remaining calls (every call still contributes its message). -/
theorem C9_executeToolCalls_per_call (parse : String → Except String Json)
    (stringify : Json → String) (st : AgentSt) (calls : List ToolCall) :
    ∃ appended : List ChatMessage,
      (executeToolCalls parse stringify st calls).1.messages = st.messages ++ appended ∧
      appended.map (fun m => (m.role, m.toolCallId, m.content)) =
        calls.map (fun tc =>
          (Role.tool, some tc.id, toolOutcomeContent parse stringify st.tools tc)) ∧
      (executeToolCalls parse stringify st calls).2 = toolEventsSpec parse st.tools calls := by
  induction calls generalizing st with
  | nil =>
    exact ⟨[], by simp [executeToolCalls], by simp, by simp [executeToolCalls, toolEventsSpec]⟩
  | cons tc rest ih =>
    rcases h : mapGet st.tools tc.name with _ | tool
    · obtain ⟨app, h1, h2, h3⟩ :=
        ih { st with
          messages := st.messages ++
            [{ mkMessage st.ctr Role.tool
                 ("Error: Tool '" ++ tc.name ++ "' not found") with
               toolCallId := some tc.id }]
          ctr := st.ctr + 1 }
      refine ⟨{ mkMessage st.ctr Role.tool
                  ("Error: Tool '" ++ tc.name ++ "' not found") with
                toolCallId := some tc.id } :: app, ?_, ?_, ?_⟩
      · simp only [executeToolCalls, h, h1, List.append_assoc, List.singleton_append]
      · simp only [List.map_cons, h2, mkMessage, toolOutcomeContent, h]
      · simp only [executeToolCalls, h, h3, toolEventsSpec, List.filterMap_cons]
    · rcases hr : (parse tc.arguments).bind tool.handler with e | result
      · obtain ⟨app, h1, h2, h3⟩ :=
          ih { st with
            messages := st.messages ++
              [{ mkMessage st.ctr Role.tool ("Error executing tool: " ++ e) with
                 toolCallId := some tc.id }]
            ctr := st.ctr + 1 }
        refine ⟨{ mkMessage st.ctr Role.tool ("Error executing tool: " ++ e) with
                  toolCallId := some tc.id } :: app, ?_, ?_, ?_⟩
        · simp only [executeToolCalls, h, hr, h1, List.append_assoc, List.singleton_append]
        · simp only [List.map_cons, h2, mkMessage, toolOutcomeContent, h, hr]
        · simp only [executeToolCalls, h, hr, h3, toolEventsSpec, List.filterMap_cons]
      · obtain ⟨app, h1, h2, h3⟩ :=
          ih { st with
            messages := st.messages ++
              [{ mkMessage st.ctr Role.tool (stringify result) with
                 toolCallId := some tc.id }]
            ctr := st.ctr + 1 }
        refine ⟨{ mkMessage st.ctr Role.tool (stringify result) with
                  toolCallId := some tc.id } :: app, ?_, ?_, ?_⟩
        · simp only [executeToolCalls, h, hr, h1, List.append_assoc, List.singleton_append]
        · simp only [List.map_cons, h2, mkMessage, toolOutcomeContent, h, hr]
        · simp only [executeToolCalls, h, hr, h3, toolEventsSpec, List.filterMap_cons]

/-- In-order concatenation of a list of strings. -/
def concatAll : List String → String
  | [] => ""
  | s :: rest => s ++ concatAll rest

/-- Invariants of the streaming loop: with no tool-call deltas in sight, the
accumulated content is the concatenation of the textual deltas, the
tool-call list is untouched, and one `streaming-chunk` event is appended
per non-empty textual delta, in order, carrying that delta. -/
lemma streamStep_fold (chunks : List Chunk) (acc : String × ChatMessage × List Event)
    (hnc : ∀ c ∈ chunks, (c.choices.head?).bind (fun d => d.tool_calls) = none)
    (hinv : acc.2.1.content = acc.1) :
    (chunks.foldl streamStep acc).1 = acc.1 ++ concatAll (textDeltas chunks) ∧
    (chunks.foldl streamStep acc).2.1.content = acc.1 ++ concatAll (textDeltas chunks) ∧
    (chunks.foldl streamStep acc).2.1.toolCalls = acc.2.1.toolCalls ∧
    (chunks.foldl streamStep acc).2.1.role = acc.2.1.role ∧
    (chunks.foldl streamStep acc).2.2.filterMap chunkPayload =
      acc.2.2.filterMap chunkPayload ++ (textDeltas chunks).filter (fun d => ¬ d = "") := by
  induction chunks generalizing acc with
  | nil => simp [textDeltas, concatAll, hinv]
  | cons c cs ih =>
    have hc : (c.choices.head?).bind (fun d => d.tool_calls) = none :=
      hnc c (List.mem_cons_self c cs)
    have hcs : ∀ x ∈ cs, (x.choices.head?).bind (fun d => d.tool_calls) = none :=
      fun x hx => hnc x (List.mem_cons_of_mem c hx)
    rcases hd : (c.choices.head?).bind (fun d => d.content) with _ | d
    · have hstep : streamStep acc c = acc := by
        simp only [streamStep, hd, hc]
      rw [List.foldl_cons, hstep]
      have := ih acc hcs hinv
      simpa [textDeltas, List.filterMap_cons, hd] using this
    · by_cases hde : d = ""
      · subst hde
        have hstep : streamStep acc c = acc := by
          simp [streamStep, hd, hc]
        rw [List.foldl_cons, hstep]
        have := ih acc hcs hinv
        simp only [textDeltas, List.filterMap_cons, hd] at this ⊢
        simpa using this
      · have hstep : streamStep acc c =
            (acc.1 ++ d, { acc.2.1 with content := acc.1 ++ d },
             acc.2.2 ++ [Event.streamingChunk d { acc.2.1 with content := acc.1 ++ d }]) := by
          simp only [streamStep, hd, hc, if_neg hde]
        rw [List.foldl_cons, hstep]
        have := ih (acc.1 ++ d, { acc.2.1 with content := acc.1 ++ d },
          acc.2.2 ++ [Event.streamingChunk d { acc.2.1 with content := acc.1 ++ d }])
          hcs rfl
        obtain ⟨i1, i2, i3, i4, i5⟩ := this
        refine ⟨?_, ?_, ?_, ?_, ?_⟩
        · rw [i1]
          simp [textDeltas, List.filterMap_cons, hd, concatAll, String.append_assoc]
        · rw [i2]
          simp [textDeltas, List.filterMap_cons, hd, concatAll, String.append_assoc]
        · simpa using i3
        · simpa using i4
        · rw [i5]
          simp [textDeltas, List.filterMap_cons, hd, chunkPayload, List.filter_cons, hde]

/-- The `lastToolCallDeltas` fold, started from any accumulator, yields the
last present `tool_calls` array, the accumulator when there is none. -/
lemma foldl_lastToolCall (cs : List Chunk) (a : Option (List RawToolCall)) :
    cs.foldl
        (fun acc c =>
          match (c.choices.head?).bind (fun d => d.tool_calls) with
          | some tcs => some tcs
          | none => acc) a =
      match lastToolCallDeltas cs with
      | some t => some t
      | none => a := by
  induction cs generalizing a with
  | nil => simp [lastToolCallDeltas]
  | cons c cs ih =>
    rw [List.foldl_cons]
    rcases hc : (c.choices.head?).bind (fun d => d.tool_calls) with _ | tcs
    · have hcons : lastToolCallDeltas (c :: cs) = lastToolCallDeltas cs := by
        simp only [lastToolCallDeltas, List.foldl_cons, hc]
      rw [hcons]
      simpa [hc] using ih a
    · have hcons : lastToolCallDeltas (c :: cs) =
          match lastToolCallDeltas cs with
          | some t => some t
          | none => some tcs := by
        simp only [lastToolCallDeltas, List.foldl_cons, hc]
        exact ih (some tcs)
      rw [hcons]
      simp only [hc]
      rw [ih (some tcs)]
      rcases lastToolCallDeltas cs with _ | l <;> rfl

/-- One `streamStep` changes the tool-call list to the converted
`tool_calls` of its chunk when present, else leaves it. -/
lemma streamStep_toolCalls (acc : String × ChatMessage × List Event) (c : Chunk) :
    (streamStep acc c).2.1.toolCalls =
      match (c.choices.head?).bind (fun d => d.tool_calls) with
      | some tcs => some (tcs.map rawToToolCall)
      | none => acc.2.1.toolCalls := by
  rcases hc : (c.choices.head?).bind (fun d => d.tool_calls) with _ | tcs
  · rcases hd : (c.choices.head?).bind (fun d => d.content) with _ | d
    · simp [streamStep, hc, hd]
    · by_cases hde : d = "" <;> simp [streamStep, hc, hd, hde]
  · rcases hd : (c.choices.head?).bind (fun d => d.content) with _ | d
    · simp [streamStep, hc, hd]
    · by_cases hde : d = "" <;> simp [streamStep, hc, hd, hde]

/-- C8 (amended): the streaming loop does not accumulate tool-call deltas —
each chunk that carries a `tool_calls` array replaces the assistant
message's tool-call list wholesale, so after the stream the list holds
exactly the (converted) calls of the last such chunk, the earlier chunks'
deltas being lost; when no chunk carries one, the list is untouched. -/
theorem C8_toolcall_deltas_replaced (chunks : List Chunk)
    (acc : String × ChatMessage × List Event) :
    (chunks.foldl streamStep acc).2.1.toolCalls =
      match lastToolCallDeltas chunks with
      | some tcs => some (tcs.map rawToToolCall)
      | none => acc.2.1.toolCalls := by
  induction chunks generalizing acc with
  | nil => simp [lastToolCallDeltas]
  | cons c cs ih =>
    rw [List.foldl_cons, ih (streamStep acc c), streamStep_toolCalls]
    rcases hc : (c.choices.head?).bind (fun d => d.tool_calls) with _ | tcs
    · have hcons : lastToolCallDeltas (c :: cs) = lastToolCallDeltas cs := by
        simp only [lastToolCallDeltas, List.foldl_cons, hc]
      rw [hcons]
    · have hcons : lastToolCallDeltas (c :: cs) =
          match lastToolCallDeltas cs with
          | some t => some t
          | none => some tcs := by
        simp only [lastToolCallDeltas, List.foldl_cons, hc]
        exact foldl_lastToolCall cs (some tcs)
      rw [hcons]
      rcases lastToolCallDeltas cs with _ | l <;> rfl

/-- `executeToolCalls` touches only `messages` and `ctr`. -/
lemma executeToolCalls_frame (parse : String → Except String Json)
    (stringify : Json → String) (st : AgentSt) (calls : List ToolCall) :
    (executeToolCalls parse stringify st calls).1.config = st.config ∧
    (executeToolCalls parse stringify st calls).1.engine = st.engine ∧
    (executeToolCalls parse stringify st calls).1.isLoaded = st.isLoaded ∧
    (executeToolCalls parse stringify st calls).1.isStreaming = st.isStreaming ∧
    (executeToolCalls parse stringify st calls).1.tools = st.tools ∧
    (executeToolCalls parse stringify st calls).1.sent = st.sent := by
  induction calls generalizing st with
  | nil => simp [executeToolCalls]
  | cons tc rest ih =>
    rcases h : mapGet st.tools tc.name with _ | tool
    · simpa [executeToolCalls, h] using ih _
    · rcases hr : (parse tc.arguments).bind tool.handler with e | result <;>
        simpa [executeToolCalls, h, hr] using ih _

/-- `executeToolCalls` only appends to the message history. -/
lemma executeToolCalls_messages_shape (parse : String → Except String Json)
    (stringify : Json → String) (st : AgentSt) (calls : List ToolCall) :
    ∃ app, (executeToolCalls parse stringify st calls).1.messages = st.messages ++ app := by
  induction calls generalizing st with
  | nil => exact ⟨[], by simp [executeToolCalls]⟩
  | cons tc rest ih =>
    rcases h : mapGet st.tools tc.name with _ | tool
    · obtain ⟨app, happ⟩ := ih
        { st with
          messages := st.messages ++
            [{ mkMessage st.ctr Role.tool
                 ("Error: Tool '" ++ tc.name ++ "' not found") with
               toolCallId := some tc.id }]
          ctr := st.ctr + 1 }
      exact ⟨{ mkMessage st.ctr Role.tool
                 ("Error: Tool '" ++ tc.name ++ "' not found") with
               toolCallId := some tc.id } :: app,
        by simp only [executeToolCalls, h, happ, List.append_assoc, List.singleton_append]⟩
    · rcases hr : (parse tc.arguments).bind tool.handler with e | result
      · obtain ⟨app, happ⟩ := ih
          { st with
            messages := st.messages ++
              [{ mkMessage st.ctr Role.tool ("Error executing tool: " ++ e) with
                 toolCallId := some tc.id }]
            ctr := st.ctr + 1 }
        exact ⟨{ mkMessage st.ctr Role.tool ("Error executing tool: " ++ e) with
                 toolCallId := some tc.id } :: app,
          by simp only [executeToolCalls, h, hr, happ, List.append_assoc, List.singleton_append]⟩
      · obtain ⟨app, happ⟩ := ih
          { st with
            messages := st.messages ++
              [{ mkMessage st.ctr Role.tool (stringify result) with
                 toolCallId := some tc.id }]
            ctr := st.ctr + 1 }
        exact ⟨{ mkMessage st.ctr Role.tool (stringify result) with
                 toolCallId := some tc.id } :: app,
          by simp only [executeToolCalls, h, hr, happ, List.append_assoc, List.singleton_append]⟩

/-- A `chat` call that fails one of the two entry guards (any fuel) leaves
the state untouched and emits nothing. -/
lemma chat_stuck (parse : String → Except String Json) (stringify : Json → String)
    (fuel : Nat) (st : AgentSt) (message : String) (streaming : Bool)
    (h : st.isStreaming = true) :
    (chat parse stringify fuel st message streaming).st = st ∧
    (chat parse stringify fuel st message streaming).events = [] := by
  match fuel with
  | 0 => exact ⟨rfl, rfl⟩
  | fuel + 1 =>
    by_cases he : st.engine.isNone || !st.isLoaded
    · simp [chat, he]
    · simp [chat, he, h]

/-- A `chat` call on a loaded agent whose busy flag is set fails with the
busy error, state untouched, no event. -/
lemma chat_busy (parse : String → Except String Json) (stringify : Json → String)
    (fuel : Nat) (st : AgentSt) (message : String) (streaming : Bool)
    (h1 : st.isLoaded = true) (h2 : st.engine.isSome = true)
    (h3 : st.isStreaming = true) :
    chat parse stringify (fuel + 1) st message streaming =
      ⟨Except.error ChatError.busy, st, []⟩ := by
  rcases he : st.engine with _ | rs
  · rw [he] at h2; simp at h2
  · simp [chat, he, h1, h3]

/-- C4: both precondition failures of `chat` are atomic: an agent that is
not initialized (no engine reference or not loaded) fails with the
not-initialized error, and a loaded agent with a turn in flight fails with
the busy error; in both cases the entire state — message history included —
is returned unchanged and no request is recorded on the engine trace (the
whole `AgentSt`, with its `sent` trace and unconsumed engine script, is
exactly the input state). -/
theorem C4_guard_failures_atomic (parse : String → Except String Json)
    (stringify : Json → String) (fuel : Nat) (st : AgentSt) (message : String)
    (streaming : Bool) :
    (st.engine = none ∨ st.isLoaded = false →
      chat parse stringify (fuel + 1) st message streaming =
        ⟨Except.error ChatError.notInitialized, st, []⟩) ∧
    (st.isLoaded = true → st.engine.isSome = true → st.isStreaming = true →
      chat parse stringify (fuel + 1) st message streaming =
        ⟨Except.error ChatError.busy, st, []⟩) := by
  constructor
  · rintro (h | h) <;> simp [chat, h]
  · intro h1 h2 h3
    rcases he : st.engine with _ | rs
    · rw [he] at h2; simp at h2
    · simp [chat, he, h1, h3]

/-- C4 witness: a freshly constructed (never initialized) agent, and a
loaded agent with the busy flag set, both fail atomically. -/
theorem C4_witness :
    chat parse0 stringify0 1 (Agent.new cfg0 0) "hi" true =
      ⟨Except.error ChatError.notInitialized, Agent.new cfg0 0, []⟩ ∧
    chat parse0 stringify0 1 { stReady with isStreaming := true } "x" false =
      ⟨Except.error ChatError.busy, { stReady with isStreaming := true }, []⟩ :=
  ⟨(C4_guard_failures_atomic parse0 stringify0 0 _ "hi" true).1 (Or.inl rfl),
   (C4_guard_failures_atomic parse0 stringify0 0 _ "x" false).2 rfl rfl rfl⟩

/-- C2 (amended): only failures raised inside the turn body are observed —
an engine rejection is re-raised with an `error` event (error + agent id)
as the last event emitted; the not-initialized and busy guard failures,
thrown before the `try` block, are re-raised without emitting any event. -/
theorem C2_error_event_policy (parse : String → Except String Json)
    (stringify : Json → String) (fuel : Nat) (st : AgentSt) (message : String)
    (streaming : Bool) :
    (st.engine = none ∨ st.isLoaded = false →
      (chat parse stringify (fuel + 1) st message streaming).result =
          Except.error ChatError.notInitialized ∧
        (chat parse stringify (fuel + 1) st message streaming).events = []) ∧
    (st.isLoaded = true → st.engine.isSome = true → st.isStreaming = true →
      (chat parse stringify (fuel + 1) st message streaming).result =
          Except.error ChatError.busy ∧
        (chat parse stringify (fuel + 1) st message streaming).events = []) ∧
    (∀ e rest, st.isLoaded = true → st.isStreaming = false →
      st.engine = some (EngineResult.reject e :: rest) →
      (chat parse stringify (fuel + 1) st message streaming).result =
          Except.error (ChatError.engine e) ∧
        (chat parse stringify (fuel + 1) st message streaming).events.getLast? =
          some (Event.error (ChatError.engine e) st.config.id)) := by
  refine ⟨?_, ?_, ?_⟩
  · rintro (h | h) <;> simp [chat, h]
  · intro h1 h2 h3
    rcases he : st.engine with _ | rs
    · rw [he] at h2; simp at h2
    · simp [chat, he, h1, h3]
  · intro e rest h1 h2 he
    cases streaming <;>
      simp [chat, he, h1, h2, createCall, List.getLast?_concat]

/-- C2 witness: an engine rejection on a loaded, idle agent is re-raised
with the `error` event as the final event. -/
theorem C2_witness :
    (chat parse0 stringify0 1
        { Agent.new cfg0 0 with
          engine := some [EngineResult.reject "engine exploded"], isLoaded := true }
        "hi" false).result = Except.error (ChatError.engine "engine exploded") ∧
    (chat parse0 stringify0 1
        { Agent.new cfg0 0 with
          engine := some [EngineResult.reject "engine exploded"], isLoaded := true }
        "hi" false).events.getLast? =
      some (Event.error (ChatError.engine "engine exploded") "agent-1") :=
  (C2_error_event_policy parse0 stringify0 0 _ "hi" false).2.2
    "engine exploded" [] rfl rfl rfl

/-- The messages `executeToolCalls` appends, with the id counter starting
at `ctr`. -/
def toolCallResults (parse : String → Except String Json) (stringify : Json → String)
    (tools : List (String × AgentTool)) : Nat → List ToolCall → List ChatMessage
  | _, [] => []
  | ctr, tc :: rest =>
    match mapGet tools tc.name with
    | none =>
      { mkMessage ctr Role.tool ("Error: Tool '" ++ tc.name ++ "' not found") with
        toolCallId := some tc.id } ::
        toolCallResults parse stringify tools (ctr + 1) rest
    | some tool =>
      match (parse tc.arguments).bind tool.handler with
      | Except.ok result =>
        { mkMessage ctr Role.tool (stringify result) with toolCallId := some tc.id } ::
          toolCallResults parse stringify tools (ctr + 1) rest
      | Except.error e =>
        { mkMessage ctr Role.tool ("Error executing tool: " ++ e) with
          toolCallId := some tc.id } ::
          toolCallResults parse stringify tools (ctr + 1) rest

lemma executeToolCalls_messages (parse : String → Except String Json)
    (stringify : Json → String) (st : AgentSt) (calls : List ToolCall) :
    (executeToolCalls parse stringify st calls).1.messages =
      st.messages ++ toolCallResults parse stringify st.tools st.ctr calls := by
  induction calls generalizing st with
  | nil => simp [executeToolCalls, toolCallResults]
  | cons tc rest ih =>
    rcases h : mapGet st.tools tc.name with _ | tool
    · simp only [executeToolCalls, h]
      rw [ih]
      simp [toolCallResults, h]
    · rcases hr : (parse tc.arguments).bind tool.handler with e | result <;>
      · simp only [executeToolCalls, h, hr]
        rw [ih]
        simp [toolCallResults, h, hr]

lemma executeToolCalls_events (parse : String → Except String Json)
    (stringify : Json → String) (st : AgentSt) (calls : List ToolCall) :
    (executeToolCalls parse stringify st calls).2 =
      toolEventsSpec parse st.tools calls := by
  induction calls generalizing st with
  | nil => simp [executeToolCalls, toolEventsSpec]
  | cons tc rest ih =>
    rcases h : mapGet st.tools tc.name with _ | tool
    · simp only [executeToolCalls, h]
      rw [ih]
      simp [toolEventsSpec, List.filterMap_cons, h]
    · rcases hr : (parse tc.arguments).bind tool.handler with e | result <;>
      · simp only [executeToolCalls, h, hr]
        rw [ih]
        simp [toolEventsSpec, List.filterMap_cons, h, hr]

lemma executeToolCalls_isStreaming (parse : String → Except String Json)
    (stringify : Json → String) (st : AgentSt) (calls : List ToolCall) :
    (executeToolCalls parse stringify st calls).1.isStreaming = st.isStreaming :=
  (executeToolCalls_frame parse stringify st calls).2.2.2.1

lemma executeToolCalls_config (parse : String → Except String Json)
    (stringify : Json → String) (st : AgentSt) (calls : List ToolCall) :
    (executeToolCalls parse stringify st calls).1.config = st.config :=
  (executeToolCalls_frame parse stringify st calls).1

lemma executeToolCalls_engine (parse : String → Except String Json)
    (stringify : Json → String) (st : AgentSt) (calls : List ToolCall) :
    (executeToolCalls parse stringify st calls).1.engine = st.engine :=
  (executeToolCalls_frame parse stringify st calls).2.1

lemma executeToolCalls_isLoaded (parse : String → Except String Json)
    (stringify : Json → String) (st : AgentSt) (calls : List ToolCall) :
    (executeToolCalls parse stringify st calls).1.isLoaded = st.isLoaded :=
  (executeToolCalls_frame parse stringify st calls).2.2.1

lemma executeToolCalls_sent (parse : String → Except String Json)
    (stringify : Json → String) (st : AgentSt) (calls : List ToolCall) :
    (executeToolCalls parse stringify st calls).1.sent = st.sent :=
  (executeToolCalls_frame parse stringify st calls).2.2.2.2.2

lemma chat_stuck_st (parse : String → Except String Json) (stringify : Json → String)
    (fuel : Nat) (st : AgentSt) (message : String) (streaming : Bool)
    (h : st.isStreaming = true) :
    (chat parse stringify fuel st message streaming).st = st :=
  (chat_stuck parse stringify fuel st message streaming h).1

lemma chat_stuck_events (parse : String → Except String Json) (stringify : Json → String)
    (fuel : Nat) (st : AgentSt) (message : String) (streaming : Bool)
    (h : st.isStreaming = true) :
    (chat parse stringify fuel st message streaming).events = [] :=
  (chat_stuck parse stringify fuel st message streaming h).2

lemma take_len_succ_append (l : List α) (a : α) (tail : List α) :
    (l ++ a :: tail).take (l.length + 1) = l ++ [a] := by
  rw [show l ++ a :: tail = (l ++ [a]) ++ tail by simp]
  exact List.take_left' (by simp)

/-- Shape of every `chat` turn that passes the guards: whatever the engine
script holds, the turn first appends the user message built from `message`
(emitting `message-added` first), and sends exactly one completion request,
built by `buildRequest` over the history including that user message. -/
lemma chat_turn_shape (parse : String → Except String Json) (stringify : Json → String)
    (fuel : Nat) (st : AgentSt) (message : String) (streaming : Bool)
    (rs : List EngineResult)
    (h1 : st.isLoaded = true) (h2 : st.isStreaming = false)
    (he : st.engine = some rs) :
    (chat parse stringify (fuel + 1) st message streaming).events.head? =
        some (Event.messageAdded (mkMessage st.ctr Role.user message)) ∧
    (chat parse stringify (fuel + 1) st message streaming).st.messages.take
        (st.messages.length + 1) =
      st.messages ++ [mkMessage st.ctr Role.user message] ∧
    (chat parse stringify (fuel + 1) st message streaming).st.sent =
      st.sent ++ [buildRequest st.config
        (st.messages ++ [mkMessage st.ctr Role.user message])
        (st.tools.map Prod.snd) streaming] := by
  rcases rs with _ | ⟨r, rest0⟩
  · cases streaming <;>
      simp [chat, he, h1, h2, createCall, take_len_succ_append]
  · rcases r with chunks | resp | err
    · cases streaming
      · simp [chat, he, h1, h2, createCall, take_len_succ_append]
      · refine ⟨?_, ?_, ?_⟩ <;>
        · simp only [chat]
          rw [if_neg (by simp [he, h1]), if_neg (by simp [h2])]
          simp only [he, createCall, Bool.false_eq_true, Bool.true_eq_false, if_true, if_false]
          split <;> (try split) <;>
            simp [executeToolCalls_messages, executeToolCalls_events,
              executeToolCalls_isStreaming, executeToolCalls_config,
              executeToolCalls_engine, executeToolCalls_isLoaded,
              executeToolCalls_sent, chat_stuck_st, chat_stuck_events,
              take_len_succ_append]
    · cases streaming
      · refine ⟨?_, ?_, ?_⟩ <;>
        · simp only [chat]
          rw [if_neg (by simp [he, h1]), if_neg (by simp [h2])]
          simp only [he, createCall, Bool.false_eq_true, Bool.true_eq_false, if_true, if_false]
          split <;> (try split) <;>
            simp [executeToolCalls_messages, executeToolCalls_events,
              executeToolCalls_isStreaming, executeToolCalls_config,
              executeToolCalls_engine, executeToolCalls_isLoaded,
              executeToolCalls_sent, chat_stuck_st, chat_stuck_events,
              take_len_succ_append]
      · simp [chat, he, h1, h2, createCall, take_len_succ_append]
    · cases streaming <;>
        simp [chat, he, h1, h2, createCall, take_len_succ_append]

/-- C3 (amended): on a loaded, idle agent every `chat(message, streaming)`
call appends a user message whose content is `message` unconditionally —
`message-added` for it is the first event of the turn and the message sits
right after the prior history — including when `message` is the empty
string (the code has no non-emptiness check). -/
theorem C3_user_message_appended_unconditionally (parse : String → Except String Json)
    (stringify : Json → String) (fuel : Nat) (st : AgentSt) (message : String)
    (streaming : Bool) (rs : List EngineResult)
    (h1 : st.isLoaded = true) (h2 : st.isStreaming = false)
    (he : st.engine = some rs) :
    (chat parse stringify (fuel + 1) st message streaming).events.head? =
        some (Event.messageAdded (mkMessage st.ctr Role.user message)) ∧
    (chat parse stringify (fuel + 1) st message streaming).st.messages.take
        (st.messages.length + 1) =
      st.messages ++ [mkMessage st.ctr Role.user message] :=
  ⟨(chat_turn_shape parse stringify fuel st message streaming rs h1 h2 he).1,
   (chat_turn_shape parse stringify fuel st message streaming rs h1 h2 he).2.1⟩

/-- C3 witness: the amended claim at the empty message — `chat('', false)`
still appends a user message with empty content. -/
theorem C3_witness :
    (chat parse0 stringify0 1 stReady "" false).events.head? =
        some (Event.messageAdded (mkMessage 0 Role.user "")) ∧
    (chat parse0 stringify0 1 stReady "" false).st.messages.take 1 =
      [mkMessage 0 Role.user ""] :=
  C3_user_message_appended_unconditionally parse0 stringify0 0 stReady "" false
    [EngineResult.completion respOk] rfl rfl rfl

/-- C6 (amended): the request `chat` sends to the engine is built from the
full history including the just-appended user message, each message mapped
to role and content (tool-role messages with a non-empty tool-call id also
carrying it), `stream` set to the flag; `temperature`, `topP` and
`maxTokens` are taken from the config only when set and non-zero, the
defaults `0.7`, `0.9`, `1000` being substituted when the field is unset or
set to `0`; the tool schema list and `tool_choice` `'auto'` are present
exactly when at least one tool is registered. -/
theorem C6_request_contents (parse : String → Except String Json)
    (stringify : Json → String) (fuel : Nat) (st : AgentSt) (message : String)
    (streaming : Bool) (rs : List EngineResult)
    (h1 : st.isLoaded = true) (h2 : st.isStreaming = false)
    (he : st.engine = some rs) :
    ((chat parse stringify (fuel + 1) st message streaming).st.sent =
      st.sent ++ [buildRequest st.config
        (st.messages ++ [mkMessage st.ctr Role.user message])
        (st.tools.map Prod.snd) streaming]) ∧
    ∀ (cfg : AgentConfig) (msgs : List ChatMessage) (tools : List AgentTool) (s : Bool),
      (buildRequest cfg msgs tools s).messages = msgs.map (fun m =>
          { role := m.role, content := m.content,
            tool_call_id := if m.role = Role.tool then strTruthy m.toolCallId else none }) ∧
      (buildRequest cfg msgs tools s).temperature =
        (match cfg.temperature with
         | some t => if t = 0 then 7 / 10 else t
         | none => 7 / 10) ∧
      (buildRequest cfg msgs tools s).top_p =
        (match cfg.topP with
         | some t => if t = 0 then 9 / 10 else t
         | none => 9 / 10) ∧
      (buildRequest cfg msgs tools s).max_tokens =
        (match cfg.maxTokens with
         | some t => if t = 0 then 1000 else t
         | none => 1000) ∧
      (buildRequest cfg msgs tools s).stream = s ∧
      (tools ≠ [] →
        (buildRequest cfg msgs tools s).tools = some (tools.map (fun t =>
          { name := t.name, description := t.description,
            parameters := t.parameters.getD (Json.obj []) })) ∧
        (buildRequest cfg msgs tools s).tool_choice = some "auto") ∧
      (tools = [] →
        (buildRequest cfg msgs tools s).tools = none ∧
        (buildRequest cfg msgs tools s).tool_choice = none) := by
  refine ⟨(chat_turn_shape parse stringify fuel st message streaming rs h1 h2 he).2.2,
    fun cfg msgs tools s => ?_⟩
  rcases tools with _ | ⟨t0, trest⟩ <;> simp [buildRequest, jsOrNum]

/-- A registered tool whose handler echoes its parsed arguments. -/
def toolEcho : AgentTool :=
  { name := "echo", description := "echoes the arguments",
    handler := fun j => Except.ok j }

def cfgTool : AgentConfig :=
  { cfg0 with temperature := some 2, tools := some [toolEcho] }

/-- A loaded agent with one registered tool and a nonzero configured
temperature. -/
def stTool : AgentSt :=
  { Agent.new cfgTool 0 with
    engine := some [EngineResult.completion respOk], isLoaded := true }

/-- C6 witness: on an agent with one registered tool and temperature 2, the
sent request is the one `buildRequest` builds, with temperature 2 and
`tool_choice` `'auto'`. -/
theorem C6_witness :
    (chat parse0 stringify0 1 stTool "q" false).st.sent =
      [buildRequest cfgTool [mkMessage 0 Role.user "q"] [toolEcho] false] ∧
    (buildRequest cfgTool [mkMessage 0 Role.user "q"] [toolEcho] false).temperature = 2 ∧
    (buildRequest cfgTool [mkMessage 0 Role.user "q"] [toolEcho] false).tool_choice =
      some "auto" := by
  obtain ⟨hsent, hfields⟩ :=
    C6_request_contents parse0 stringify0 0 stTool "q" false
      [EngineResult.completion respOk] rfl rfl rfl
  obtain ⟨-, htemp, -, -, -, htools, -⟩ :=
    hfields cfgTool [mkMessage 0 Role.user "q"] [toolEcho] false
  refine ⟨hsent, ?_, (htools (by simp)).2⟩
  rw [htemp]
  norm_num [cfgTool]

lemma drop_len_succ_append (l : List α) (a : α) (tail : List α) :
    (l ++ a :: tail).drop (l.length + 1) = tail := by
  rw [show l ++ a :: tail = (l ++ [a]) ++ tail by simp]
  exact List.drop_left' (by simp)

lemma string_empty_append (s : String) : "" ++ s = s := rfl

lemma getLast?_cons_concat (x : α) (l : List α) (a : α) :
    (x :: (l ++ [a])).getLast? = some a := by
  rw [show x :: (l ++ [a]) = (x :: l) ++ [a] from rfl]
  exact List.getLast?_concat _

lemma mkMessage_role (ctr : Nat) (role : Role) (content : String) :
    (mkMessage ctr role content).role = role := rfl

lemma mkMessage_content (ctr : Nat) (role : Role) (content : String) :
    (mkMessage ctr role content).content = content := rfl

lemma mkMessage_toolCalls (ctr : Nat) (role : Role) (content : String) :
    (mkMessage ctr role content).toolCalls = none := rfl

/-- C7: in a streaming turn (no tool-call deltas), the returned content —
and the content of the assistant message appended after the stream — is the
in-order concatenation of the chunks' textual deltas, and the turn emits
exactly one `streaming-chunk` event per non-empty textual delta, carrying
that delta, in chunk order. -/
theorem C7_streaming_accumulation (parse : String → Except String Json)
    (stringify : Json → String) (fuel : Nat) (st : AgentSt) (message : String)
    (chunks : List Chunk) (rest0 : List EngineResult)
    (h1 : st.isLoaded = true) (h2 : st.isStreaming = false)
    (he : st.engine = some (EngineResult.stream chunks :: rest0))
    (hnc : ∀ c ∈ chunks, (c.choices.head?).bind (fun d => d.tool_calls) = none) :
    (chat parse stringify (fuel + 1) st message true).result =
        Except.ok (concatAll (textDeltas chunks)) ∧
    ((chat parse stringify (fuel + 1) st message true).st.messages.drop
        (st.messages.length + 1)).map (fun m => (m.role, m.content)) =
      [(Role.assistant, concatAll (textDeltas chunks))] ∧
    (chat parse stringify (fuel + 1) st message true).events.filterMap chunkPayload =
      (textDeltas chunks).filter (fun d => ¬ d = "") := by
  obtain ⟨f1, f2, f3, f4, f5⟩ :=
    streamStep_fold chunks ("", mkMessage (st.ctr + 1) Role.assistant "", []) hnc rfl
  refine ⟨?_, ?_, ?_⟩ <;>
  · simp only [chat]
    rw [if_neg (by simp [he, h1]), if_neg (by simp [h2])]
    simp only [he, createCall, Bool.false_eq_true, Bool.true_eq_false, if_true, if_false]
    rw [if_neg (by rw [f3]; simp [mkMessage_toolCalls])]
    simp [f1, f2, f4, f5, drop_len_succ_append, chunkPayload, List.filterMap_append,
      mkMessage_role, mkMessage_content, mkMessage_toolCalls, string_empty_append]

def chunkHel : Chunk := { choices := [{ content := some "Hel" }] }

def chunkLo : Chunk := { choices := [{ content := some "lo" }] }

/-- A loaded agent whose engine streams the chunks `"Hel"`, `"lo"`. -/
def stHello : AgentSt :=
  { Agent.new cfg0 0 with
    engine := some [EngineResult.stream [chunkHel, chunkLo]], isLoaded := true }

/-- C7 witness: for the chunk sequence `"Hel"`, `"lo"` the accumulated
content is `"Hello"` and exactly two `streaming-chunk` events fire, with
those deltas, in order. -/
theorem C7_witness :
    (chat parse0 stringify0 1 stHello "hi" true).result = Except.ok "Hello" ∧
    ((chat parse0 stringify0 1 stHello "hi" true).st.messages.drop 1).map
        (fun m => (m.role, m.content)) = [(Role.assistant, "Hello")] ∧
    (chat parse0 stringify0 1 stHello "hi" true).events.filterMap chunkPayload =
      ["Hel", "lo"] := by
  have h := C7_streaming_accumulation parse0 stringify0 0 stHello "hi"
    [chunkHel, chunkLo] [] rfl rfl rfl (by decide)
  exact ⟨h.1, h.2.1, h.2.2⟩

/-- C1: the claim describes the intended control flow (append the
tool-calling assistant message, run the tools, then return the recursive
`chat('', streaming)` result), but the recursive call is made while the
busy flag set at the start of the turn is still set, so it always throws
the busy error: every turn whose assistant message carries at least one
tool call ends with `Agent is currently processing another request`
re-raised (after an `error` event), never with the model's follow-up
answer. -/
theorem C1_toolcall_turn_throws_busy (parse : String → Except String Json)
    (stringify : Json → String) (fuel : Nat) (st : AgentSt) (message : String)
    (resp : ChatCompletion) (rest0 : List EngineResult)
    (h1 : st.isLoaded = true) (h2 : st.isStreaming = false)
    (he : st.engine = some (EngineResult.completion resp :: rest0))
    (htc : ((resp.choices.head?.bind (fun c => c.message)).bind
        (fun m => m.tool_calls)).getD [] ≠ []) :
    (chat parse stringify (fuel + 2) st message false).result =
        Except.error ChatError.busy ∧
    (chat parse stringify (fuel + 2) st message false).events.getLast? =
      some (Event.error ChatError.busy st.config.id) := by
  rcases hm : (resp.choices.head?.bind (fun c => c.message)).bind
      (fun m => m.tool_calls) with _ | tcs
  · rw [hm] at htc; simp at htc
  · rcases tcs with _ | ⟨t0, ts⟩
    · rw [hm] at htc; simp at htc
    · refine ⟨?_, ?_⟩ <;>
      · simp only [chat]
        rw [if_neg (by simp [he, h1]), if_neg (by simp [h2])]
        simp only [he, createCall, Bool.false_eq_true, Bool.true_eq_false,
          if_true, if_false, hm]
        rw [if_pos (by simp)]
        simp [chat_busy, executeToolCalls_isLoaded, executeToolCalls_engine,
          executeToolCalls_isStreaming, executeToolCalls_config, h1,
          List.getLast?_concat, getLast?_cons_concat]

/-- The tool call of the C1 witness's scripted engine answer. -/
def nsCallEcho : NSToolCall :=
  { id := "c1", function := { name := "echo", arguments := "{}" } }

/-- The engine answer of the C1 witness: one call of the registered tool
`echo`. -/
def respToolCall : ChatCompletion :=
  { choices := [{ message := some { tool_calls := some [nsCallEcho] } }] }

/-- A loaded agent with the `echo` tool registered and a follow-up answer
scripted after the tool-call completion. -/
def stC1 : AgentSt :=
  { Agent.new { cfg0 with tools := some [toolEcho] } 0 with
    engine := some [EngineResult.completion respToolCall,
      EngineResult.completion respOk],
    isLoaded := true }

/-- C1 witness: even with the tool registered and a follow-up response
scripted, the turn ends in the busy error. -/
theorem C1_witness :
    (chat parse0 stringify0 2 stC1 "hi" false).result =
        Except.error ChatError.busy ∧
    (chat parse0 stringify0 2 stC1 "hi" false).events.getLast? =
      some (Event.error ChatError.busy "agent-1") :=
  C1_toolcall_turn_throws_busy parse0 stringify0 0 stC1 "hi" respToolCall
    [EngineResult.completion respOk] rfl rfl rfl (by decide)

end WebAgent
